import Mathlib

/-!
Shallow embedding of the handler logic of the timezone-intel service
(src/index.ts), together with theorems checking the specification claims.

Modelling conventions:
* An upstream HTTP call is abstracted by `FetchOutcome α`: either an HTTP
  response with a numeric status and an already-parsed JSON body of type `α`,
  or a network failure carrying the transport error message.
* `fetchJSON` mirrors the helper of the same name: a non-2xx status becomes a
  thrown error whose message embeds the status (`API error: <status>`); the
  parsed body is returned otherwise.  Thrown JS errors are modelled by
  `Except.error`.
* Wall-clock reads (`new Date()`, `Date.now()`, `getFullYear`,
  `toISOString`) are passed in as explicit parameters, evaluated once per
  request exactly where the source reads the clock.
* `String.toUpper` models `String.prototype.toUpperCase()` (the inputs in
  question are 2-character ASCII country codes), and Lean's lexicographic
  `String` order models the JS string comparison `>=` used on zero-padded
  ISO dates.
* `new Date(s).getTime()` (epoch milliseconds of a parsed date string) is an
  environment function, passed as a parameter `epoch : String → Int`;
  `Date.now()` is the parameter `now : Int`.  `Math.ceil` applied to the
  division of such integers by 86400000 is exact integer ceiling division
  (the quantities involved are far below the range where the float division
  could round across an integer), modelled by `ceilDiv`.
-/

/-- Outcome of one upstream HTTP request: a response with an HTTP status and
a parsed JSON body of type `α`, or a network-level failure. -/
inductive FetchOutcome (α : Type) where
  | response (status : Nat) (body : α)
  | networkFailure (message : String)

/-- `Response.ok` of the Fetch API: status in the range 200–299. -/
def statusOk (status : Nat) : Bool :=
  decide (200 ≤ status) && decide (status < 300)

/-- Embeds the helper `fetchJSON` (src/index.ts lines 21–27): a non-ok
response throws `API error: <status>`, a network failure propagates the
transport error, otherwise the parsed body is returned. -/
def fetchJSON {α : Type} : FetchOutcome α → Except String α
  | FetchOutcome.response s b =>
      if statusOk s then Except.ok b else Except.error ("API error: " ++ toString s)
  | FetchOutcome.networkFailure m => Except.error m

/-- True when the upstream call fails (non-2xx response or network failure). -/
def outcomeFails {α : Type} : FetchOutcome α → Bool
  | FetchOutcome.response s _ => !statusOk s
  | FetchOutcome.networkFailure _ => true

/-- `Except.ok`-ness as a Boolean, for stating success conditions. -/
def isOkE {ε α : Type} : Except ε α → Bool
  | Except.ok _ => true
  | Except.error _ => false

/-! ## Upstream response shapes (the fields the handlers read) -/

/-- Body of `timeapi.io /api/time/current/zone`, with the fields the source
reads (`data.timeZone`, `data.dateTime`, ...). -/
structure TimeData where
  timeZone : String
  dateTime : String
  date : String
  time : String
  dayOfWeek : String
  dstActive : Bool
  year : Int
  month : Int
  day : Int
  hour : Int
  minute : Int
  seconds : Int
deriving DecidableEq, Repr

/-- One entry of the `date.nager.at` AvailableCountries list. -/
structure Country where
  countryCode : String
  name : String
deriving DecidableEq, Repr

/-- One entry of the `date.nager.at` public-holidays list, with the upstream
field names the source reads (`h.date`, `h.name`, `h.localName`, `h.global`,
`h.types`). -/
structure RawHoliday where
  date : String
  name : String
  localName : String
  global : Bool
  types : List String
deriving DecidableEq, Repr

/-- Inner `conversionResult` object of the timeapi.io conversion response. -/
structure ConversionResultData where
  dateTime : String
  date : String
  time : String
  dayOfWeek : String
  dstActive : Bool
deriving DecidableEq, Repr

/-- Body of the timeapi.io `converttimezone` response, with the fields the
source reads; `conversionResult` may be absent upstream, hence `Option`. -/
structure ConvertResp where
  fromTimezone : String
  fromDateTime : String
  toTimeZone : String
  conversionResult : Option ConversionResultData
deriving DecidableEq, Repr

/-! ## Overview handler (src/index.ts lines 30–66) -/

/-- The fixed sample of major IANA timezone names (src/index.ts lines 42–47). -/
def majorZones : List String :=
  ["America/New_York", "America/Los_Angeles", "America/Chicago",
   "Europe/London", "Europe/Paris", "Europe/Berlin",
   "Asia/Tokyo", "Asia/Shanghai", "Asia/Singapore",
   "Australia/Sydney", "Pacific/Auckland"]

/-- The static endpoint-description map of the overview output. -/
def endpointsMap : List (String × String) :=
  [("current-time", "Get current time in any timezone ($0.001)"),
   ("convert", "Convert time between timezones ($0.002)"),
   ("holidays", "Get holidays for country/year ($0.002)"),
   ("multi-zone", "Current time in multiple zones ($0.003)"),
   ("full-report", "Complete timezone report ($0.005)")]

/-- Output shape of the overview handler. -/
structure OverviewOutput where
  totalTimezones : Nat
  sampleTimezones : List String
  totalCountries : Nat
  sampleCountries : List Country
  endpoints : List (String × String)
  fetchedAt : String
deriving DecidableEq, Repr

/-- Embeds the `overview` handler: two upstream fetches (timezone list,
country list); `now` is `new Date().toISOString()` read at output time. -/
def overviewHandler (tzOutcome : FetchOutcome (List String))
    (countryOutcome : FetchOutcome (List Country)) (now : String) :
    Except String OverviewOutput := do
  let timezones ← fetchJSON tzOutcome
  let countries ← fetchJSON countryOutcome
  Except.ok
    { totalTimezones := timezones.length
      sampleTimezones := majorZones
      totalCountries := countries.length
      sampleCountries := countries.take 10
      endpoints := endpointsMap
      fetchedAt := now }

/-! ## Current-time handler (src/index.ts lines 69–98) -/

/-- Output shape of the `current-time` handler. -/
structure TimeSnapshot where
  timezone : String
  dateTime : String
  date : String
  time : String
  dayOfWeek : String
  dstActive : Bool
  year : Int
  month : Int
  day : Int
  hour : Int
  minute : Int
  seconds : Int
deriving DecidableEq, Repr

/-- Embeds the `current-time` handler.  The outcome argument stands for the
fetch of the per-timezone URL; the handler is a direct field mapping of the
upstream response. -/
def currentTimeHandler (outcome : FetchOutcome TimeData) :
    Except String TimeSnapshot :=
  (fetchJSON outcome).map fun data =>
    { timezone := data.timeZone
      dateTime := data.dateTime
      date := data.date
      time := data.time
      dayOfWeek := data.dayOfWeek
      dstActive := data.dstActive
      year := data.year
      month := data.month
      day := data.day
      hour := data.hour
      minute := data.minute
      seconds := data.seconds }

/-! ## Convert handler (src/index.ts lines 101–141) -/

/-- `original` block of the convert output. -/
structure ConvertOriginal where
  timezone : String
  dateTime : String
deriving DecidableEq, Repr

/-- `converted` block of the convert output; the sub-fields derived from
`conversionResult` are optional (`data.conversionResult?.dateTime` etc.). -/
structure ConvertConverted where
  timezone : String
  dateTime : Option String
  date : Option String
  time : Option String
  dayOfWeek : Option String
  dstActive : Option Bool
deriving DecidableEq, Repr

/-- Output shape of the `convert` handler. -/
structure ConvertOutput where
  original : ConvertOriginal
  converted : ConvertConverted
deriving DecidableEq, Repr

/-- Embeds the `convert` handler: it performs its own `fetch` (POST) with the
same ok-check as `fetchJSON` written inline (src/index.ts line 121), then
reshapes the response; absent `conversionResult` yields absent sub-fields. -/
def convertHandler (outcome : FetchOutcome ConvertResp) :
    Except String ConvertOutput :=
  match outcome with
  | FetchOutcome.networkFailure m => Except.error m
  | FetchOutcome.response s data =>
      if statusOk s then
        Except.ok
          { original :=
              { timezone := data.fromTimezone
                dateTime := data.fromDateTime }
            converted :=
              { timezone := data.toTimeZone
                dateTime := data.conversionResult.map ConversionResultData.dateTime
                date := data.conversionResult.map ConversionResultData.date
                time := data.conversionResult.map ConversionResultData.time
                dayOfWeek := data.conversionResult.map ConversionResultData.dayOfWeek
                dstActive := data.conversionResult.map ConversionResultData.dstActive } }
      else Except.error ("API error: " ++ toString s)

/-! ## Holidays handler (src/index.ts lines 144–175) -/

/-- Input of the `holidays` handler: a country code and an optional year. -/
structure HolidaysInput where
  countryCode : String
  year : Option Int
deriving DecidableEq, Repr

/-- Reshaped holiday of the output (`isGlobal` renames upstream `global`). -/
structure Holiday where
  date : String
  name : String
  localName : String
  isGlobal : Bool
  types : List String
deriving DecidableEq, Repr

/-- Output shape of the `holidays` handler. -/
structure HolidaysOutput where
  countryCode : String
  year : Int
  totalHolidays : Nat
  holidays : List Holiday
deriving DecidableEq, Repr

/-- The year the handler uses: `ctx.input.year || new Date().getFullYear()`.
The JS `||` takes the right operand on any falsy left value, so an explicit
year `0` is replaced by the current year, like an omitted one. -/
def holidaysRequestYear (input : HolidaysInput) (currentYear : Int) : Int :=
  match input.year with
  | none => currentYear
  | some y => if y = 0 then currentYear else y

/-- Constant part of the nager.at public-holidays URL. -/
def holidaysURLBase : String := "https://date.nager.at/api/v3/publicholidays/"

/-- The URL the holidays handler requests (src/index.ts line 155):
base, chosen year, slash, upper-cased country code. -/
def holidaysRequestURL (input : HolidaysInput) (currentYear : Int) : String :=
  holidaysURLBase ++ toString (holidaysRequestYear input currentYear) ++ "/"
    ++ input.countryCode.toUpper

/-- Embeds the `holidays` handler.  `net` is the network: it maps the
requested URL to that request's outcome.  `currentYear` is
`new Date().getFullYear()` read at request time. -/
def holidaysHandler (input : HolidaysInput) (currentYear : Int)
    (net : String → FetchOutcome (List RawHoliday)) :
    Except String HolidaysOutput :=
  (fetchJSON (net (holidaysRequestURL input currentYear))).map fun data =>
    let holidays : List Holiday := data.map fun h =>
      { date := h.date
        name := h.name
        localName := h.localName
        isGlobal := h.global
        types := h.types }
    { countryCode := input.countryCode.toUpper
      year := holidaysRequestYear input currentYear
      totalHolidays := holidays.length
      holidays := holidays }

/-! ## Multi-zone handler (src/index.ts lines 178–214) -/

/-- Success object of one multi-zone slot. -/
structure MZSuccess where
  timezone : String
  dateTime : String
  date : String
  time : String
  dayOfWeek : String
  dstActive : Bool
deriving DecidableEq, Repr

/-- One multi-zone result slot: a success object, or the error marker object
`{timezone, error}` produced by the per-item catch. -/
inductive MZSlot where
  | success (data : MZSuccess)
  | failure (timezone : String) (error : String)
deriving DecidableEq, Repr

/-- The `timezone` field common to both slot shapes. -/
def slotTimezone : MZSlot → String
  | MZSlot.success d => d.timezone
  | MZSlot.failure tz _ => tz

/-- Embeds the per-item arrow function of the multi-zone handler
(src/index.ts lines 187–203): try the fetch; on success build a success
object echoing the input timezone, on any failure catch it and return the
error marker.  `outcome` stands for the fetch of the per-timezone URL. -/
def mzItem (tz : String) (outcome : FetchOutcome TimeData) : MZSlot :=
  match fetchJSON outcome with
  | Except.ok data =>
      MZSlot.success
        { timezone := tz
          dateTime := data.dateTime
          date := data.date
          time := data.time
          dayOfWeek := data.dayOfWeek
          dstActive := data.dstActive }
  | Except.error _ => MZSlot.failure tz "Failed to fetch"

/-- Output shape of the `multi-zone` handler. -/
structure MultiZoneOutput where
  count : Nat
  times : List MZSlot
  fetchedAt : String
deriving DecidableEq, Repr

/-- Embeds the `multi-zone` handler.  `net` maps each input timezone to the
outcome of fetching that timezone's URL (URL building and fetch composed).
`Promise.all` over the per-item closures preserves input order, and every
per-item rejection is caught inside `mzItem`, so the handler is a total
function — the overall call never fails. -/
def multiZoneHandler (timezones : List String)
    (net : String → FetchOutcome TimeData) (now : String) : MultiZoneOutput :=
  let results := timezones.map fun tz => mzItem tz (net tz)
  { count := results.length
    times := results
    fetchedAt := now }

/-! ## Full-report handler (src/index.ts lines 217–263) -/

/-- Input of the `full-report` handler. -/
structure FullReportInput where
  timezone : String
  countryCode : String
deriving DecidableEq, Repr

/-- Integer ceiling division `⌈a / b⌉` for positive `b`, via the identity
`⌈a / b⌉ = -⌊(-a) / b⌋` with `Int.fdiv` the floor division.  Models
`Math.ceil(x / y)` of the source, where `x` and `y` are integers of
magnitude far below the range where float division could round across an
integer boundary. -/
def ceilDiv (a b : Int) : Int := -(Int.fdiv (-a) b)

/-- One entry of `upcomingHolidays`. -/
structure UpcomingHoliday where
  date : String
  name : String
  daysUntil : Int
deriving DecidableEq, Repr

/-- Embeds the `upcomingHolidays` computation of the full-report handler
(src/index.ts lines 234–242): keep holidays with `h.date >= today` (lexical
string comparison), take the first 5, and map each to
`{date, name, daysUntil}` with `daysUntil = Math.ceil((epoch(h.date) - now)
/ 86400000)`. -/
def upcomingOf (today : String) (now : Int) (epoch : String → Int)
    (holidays : List RawHoliday) : List UpcomingHoliday :=
  (((holidays.filter fun h => decide (today ≤ h.date)).take 5).map fun h =>
    { date := h.date
      name := h.name
      daysUntil := ceilDiv (epoch h.date - now) 86400000 })

/-- `timezone` block of the full-report output. -/
structure FullReportTimezone where
  name : String
  currentTime : String
  date : String
  time : String
  dayOfWeek : String
  dstActive : Bool
deriving DecidableEq, Repr

/-- `country` block of the full-report output. -/
structure FullReportCountry where
  code : String
  totalHolidays : Nat
  upcomingHolidays : List UpcomingHoliday
deriving DecidableEq, Repr

/-- Output shape of the `full-report` handler. -/
structure FullReportOutput where
  timezone : FullReportTimezone
  country : FullReportCountry
  generatedAt : String
deriving DecidableEq, Repr

/-- Embeds the `full-report` handler: two upstream fetches joined; `today` is
`new Date().toISOString().split(T)[0]`, `now` is `Date.now()`, `epoch` is
`s ↦ new Date(s).getTime()`, `genAt` the output timestamp. -/
def fullReportHandler (input : FullReportInput) (today : String) (now : Int)
    (epoch : String → Int) (genAt : String)
    (timeOutcome : FetchOutcome TimeData)
    (holidayOutcome : FetchOutcome (List RawHoliday)) :
    Except String FullReportOutput := do
  let timeData ← fetchJSON timeOutcome
  let holidays ← fetchJSON holidayOutcome
  Except.ok
    { timezone :=
        { name := input.timezone
          currentTime := timeData.dateTime
          date := timeData.date
          time := timeData.time
          dayOfWeek := timeData.dayOfWeek
          dstActive := timeData.dstActive }
      country :=
        { code := input.countryCode.toUpper
          totalHolidays := holidays.length
          upcomingHolidays := upcomingOf today now epoch holidays }
      generatedAt := genAt }

/-! ## Concrete sample values used to instantiate theorems -/

/-- A concrete upstream time response. -/
def sampleTimeData : TimeData :=
  { timeZone := "Europe/Paris"
    dateTime := "2026-02-01T12:00:00"
    date := "02/01/2026"
    time := "12:00"
    dayOfWeek := "Sunday"
    dstActive := false
    year := 2026
    month := 2
    day := 1
    hour := 12
    minute := 0
    seconds := 0 }

/-- A concrete upstream holiday entry. -/
def sampleHoliday : RawHoliday :=
  { date := "2026-03-01"
    name := "Carnival"
    localName := "Carnaval"
    global := true
    types := ["Public"] }

/-! ## Shared helper lemmas -/

/-- Both slot shapes echo the input timezone in their `timezone` field. -/
theorem mzItem_timezone (tz : String) (o : FetchOutcome TimeData) :
    slotTimezone (mzItem tz o) = tz := by
  unfold mzItem
  cases fetchJSON o <;> rfl

/-- A failed upstream call makes the per-item closure return the marker. -/
theorem mzItem_of_fails (tz : String) (o : FetchOutcome TimeData)
    (h : outcomeFails o = true) :
    mzItem tz o = MZSlot.failure tz "Failed to fetch" := by
  cases o with
  | response s b =>
      have hs : statusOk s = false := by
        simpa [outcomeFails] using h
      simp [mzItem, fetchJSON, hs]
  | networkFailure m => simp [mzItem, fetchJSON]

/-- `fetchJSON` succeeds exactly when the upstream call does not fail. -/
theorem fetchJSON_isOk {α : Type} (o : FetchOutcome α) :
    isOkE (fetchJSON o) = !outcomeFails o := by
  cases o with
  | response s b =>
      by_cases hs : statusOk s = true <;> simp [fetchJSON, outcomeFails, isOkE, hs]
  | networkFailure m => simp [fetchJSON, outcomeFails, isOkE]

/-! ## Claim theorems: multi-zone -/

/-- C9: For every multi-zone request and every result slot index `i`, the
slot at `i` (success object or error marker alike) carries as its `timezone`
field exactly the input timezone string at index `i`: the input string is
echoed verbatim, not the upstream canonical name. -/
theorem multiZone_timezone_echo (tzs : List String)
    (net : String → FetchOutcome TimeData) (now : String) (i : Nat) :
    ((multiZoneHandler tzs net now).times[i]?).map slotTimezone = tzs[i]? := by
  cases h : tzs[i]? with
  | none => simp [multiZoneHandler, List.getElem?_map, h]
  | some tz => simp [multiZoneHandler, List.getElem?_map, h, mzItem_timezone]

/-- C1: A multi-zone call with N input timezones (2 ≤ N ≤ 10) yields exactly
N result slots in input order: slot `i` is computed from input index `i` and
the outcome of its own upstream call alone; every slot is either a success
object echoing its input timezone or the error marker
`{timezone, error: "Failed to fetch"}`; an upstream failure for a slot is
caught and recorded as that marker in that slot; and changing upstream
outcomes only at index `k` leaves every slot `j ≠ k` unchanged.  The handler
is a total function into `MultiZoneOutput` (not `Except`), so the overall
call never fails. -/
theorem multiZone_slots (tzs : List String)
    (net net2 : String → FetchOutcome TimeData) (now : String) (k : Nat)
    (hlo : 2 ≤ tzs.length) (hhi : tzs.length ≤ 10) :
    ((multiZoneHandler tzs net now).times.length = tzs.length
      ∧ (multiZoneHandler tzs net now).count = tzs.length)
    ∧ (∀ i : Nat, (multiZoneHandler tzs net now).times[i]?
        = (tzs[i]?).map fun tz => mzItem tz (net tz))
    ∧ (∀ (i : Nat) (tz : String), tzs[i]? = some tz →
        (∃ d : MZSuccess, d.timezone = tz ∧ mzItem tz (net tz) = MZSlot.success d)
        ∨ mzItem tz (net tz) = MZSlot.failure tz "Failed to fetch")
    ∧ (∀ (i : Nat) (tz : String), tzs[i]? = some tz → outcomeFails (net tz) = true →
        mzItem tz (net tz) = MZSlot.failure tz "Failed to fetch")
    ∧ ((∀ (j : Nat) (tz : String), j ≠ k → tzs[j]? = some tz → net tz = net2 tz) →
        ∀ j, j ≠ k →
          (multiZoneHandler tzs net now).times[j]?
            = (multiZoneHandler tzs net2 now).times[j]?) := by
  refine ⟨⟨by simp [multiZoneHandler], by simp [multiZoneHandler]⟩, ?_, ?_, ?_, ?_⟩
  · intro i
    simp [multiZoneHandler, List.getElem?_map]
  · intro i tz _
    cases hf : fetchJSON (net tz) with
    | ok data =>
        left
        exact ⟨{ timezone := tz, dateTime := data.dateTime, date := data.date,
                 time := data.time, dayOfWeek := data.dayOfWeek,
                 dstActive := data.dstActive },
               rfl, by simp [mzItem, hf]⟩
    | error e =>
        right
        simp [mzItem, hf]
  · intro i tz _ hfail
    exact mzItem_of_fails tz (net tz) hfail
  · intro hagree j hj
    simp only [multiZoneHandler, List.getElem?_map]
    cases h : tzs[j]? with
    | none => simp [h]
    | some tz => simp [h, hagree j tz hj h]

/-- Witness for C1 at a concrete two-element input with a failing upstream. -/
theorem multiZone_slots_witness :
    (multiZoneHandler ["America/New_York", "Invalid/Zone"]
        (fun _ => FetchOutcome.networkFailure "down") "2026-02-01").times.length = 2 :=
  (multiZone_slots ["America/New_York", "Invalid/Zone"]
      (fun _ => FetchOutcome.networkFailure "down")
      (fun _ => FetchOutcome.networkFailure "down") "2026-02-01" 1
      (by decide) (by decide)).1.1

/-! ## Claim theorems: full-report -/

/-- C2: For every upstream holiday list, the full-report handler's
`upcomingHolidays` contains no entry whose date string is lexically below the
current ISO date string, has at most 5 entries, and consists of the first at
most 5 holidays passing the `date ≥ today` filter, in upstream order (its
date sequence is a sublist of the upstream date sequence — no re-sorting). -/
theorem fullReport_upcoming_spec (input : FullReportInput) (today : String)
    (now : Int) (epoch : String → Int) (genAt : String) (s1 s2 : Nat)
    (td : TimeData) (hs : List RawHoliday)
    (h1 : statusOk s1 = true) (h2 : statusOk s2 = true) :
    (fullReportHandler input today now epoch genAt
        (FetchOutcome.response s1 td) (FetchOutcome.response s2 hs)).map
        (fun out => out.country.upcomingHolidays)
      = Except.ok (upcomingOf today now epoch hs)
    ∧ (∀ x ∈ upcomingOf today now epoch hs, ¬ x.date < today)
    ∧ (upcomingOf today now epoch hs).length ≤ 5
    ∧ (upcomingOf today now epoch hs).map (fun x => (x.date, x.name))
        = ((hs.filter fun h => decide (today ≤ h.date)).map
            (fun h => (h.date, h.name))).take 5
    ∧ ((upcomingOf today now epoch hs).map (fun x => x.date)).Sublist
        (hs.map fun h => h.date) := by
  refine ⟨?_, ?_, ?_, ?_, ?_⟩
  · simp only [fullReportHandler, fetchJSON, h1, h2, if_true]
    rfl
  · intro x hx
    simp only [upcomingOf, List.mem_map] at hx
    obtain ⟨h, hh, rfl⟩ := hx
    have hmem := List.mem_of_mem_take hh
    have hp := (List.mem_filter.1 hmem).2
    have hle : today ≤ h.date := of_decide_eq_true hp
    exact not_lt.mpr hle
  · simp only [upcomingOf, List.length_map, List.length_take]
    exact min_le_left _ _
  · simp only [upcomingOf, List.map_map, List.map_take]
    rfl
  · have t1 : ((hs.filter fun h => decide (today ≤ h.date)).take 5).Sublist
        (hs.filter fun h => decide (today ≤ h.date)) := List.take_sublist 5 _
    have t2 : (hs.filter fun h => decide (today ≤ h.date)).Sublist hs :=
      List.filter_sublist hs
    have t3 := (t1.trans t2).map (fun h : RawHoliday => h.date)
    simpa [upcomingOf, List.map_map, Function.comp] using t3

/-- Witness for C2 at a concrete successful pair of upstream responses. -/
theorem fullReport_upcoming_spec_witness :
    (upcomingOf "2026-02-01" 0 (fun _ => 0) [sampleHoliday]).length ≤ 5 :=
  (fullReport_upcoming_spec ⟨"Europe/Paris", "fr"⟩ "2026-02-01" 0 (fun _ => 0)
      "2026-02-01T12:00:00Z" 200 200 sampleTimeData [sampleHoliday]
      (by decide) (by decide)).2.2.1

/-- C6: every entry of the full-report `upcomingHolidays` has
`daysUntil = ⌈(epoch(date) - now) / 86400000⌉` (whole-day ceiling of the
holiday's epoch milliseconds minus the current epoch milliseconds); the
value is an integer and may be zero or negative. -/
theorem fullReport_daysUntil_spec (input : FullReportInput) (today : String)
    (now : Int) (epoch : String → Int) (genAt : String) (s1 s2 : Nat)
    (td : TimeData) (hs : List RawHoliday)
    (h1 : statusOk s1 = true) (h2 : statusOk s2 = true) :
    (fullReportHandler input today now epoch genAt
        (FetchOutcome.response s1 td) (FetchOutcome.response s2 hs)).map
        (fun out => out.country.upcomingHolidays)
      = Except.ok (upcomingOf today now epoch hs)
    ∧ ∀ x ∈ upcomingOf today now epoch hs,
        x.daysUntil = ceilDiv (epoch x.date - now) 86400000 := by
  refine ⟨?_, ?_⟩
  · simp only [fullReportHandler, fetchJSON, h1, h2, if_true]
    rfl
  intro x hx
  simp only [upcomingOf, List.mem_map] at hx
  obtain ⟨h, _, rfl⟩ := hx
  rfl

/-- Witness for C6 at a concrete input, where the computed `daysUntil` is
negative (the clock sits one full day past the holiday's epoch value). -/
theorem fullReport_daysUntil_spec_witness :
    (⟨"2026-03-01", "Carnival", -1⟩ : UpcomingHoliday).daysUntil
      = ceilDiv ((fun _ => (0 : Int)) "2026-03-01" - 86400000) 86400000 :=
  (fullReport_daysUntil_spec ⟨"Europe/Paris", "fr"⟩ "2026-02-01" 86400000
      (fun _ => 0) "2026-02-01T12:00:00Z" 200 200 sampleTimeData
      [sampleHoliday] (by decide) (by decide)).2
    ⟨"2026-03-01", "Carnival", -1⟩
    (by
      have hdec : decide (("2026-02-01" : String) ≤ "2026-03-01") = true := by
        rw [decide_eq_true_eq, String.le_iff_toList_le]
        decide
      simp [upcomingOf, sampleHoliday, hdec, ceilDiv]
      decide)

/-- `isOkE` of a successful result. -/
theorem isOkE_ok {ε α : Type} (a : α) : isOkE (Except.ok (ε := ε) a) = true := rfl

/-- `isOkE` of an error. -/
theorem isOkE_error {ε α : Type} (e : ε) :
    isOkE (Except.error (α := α) e) = false := rfl

/-- `Except.map` on a success. -/
theorem exceptMap_ok {ε α β : Type} (f : α → β) (a : α) :
    Except.map f (Except.ok (ε := ε) a) = Except.ok (f a) := rfl

/-- `Except.map` on an error. -/
theorem exceptMap_error {ε α β : Type} (f : α → β) (e : ε) :
    Except.map f (Except.error (α := α) e) = Except.error (α := β) e := rfl

/-- Monadic bind of `Except` on a success. -/
theorem exceptBind_ok {ε α β : Type} (a : α) (f : α → Except ε β) :
    (Except.ok a >>= f) = f a := rfl

/-- Monadic bind of `Except` on an error. -/
theorem exceptBind_error {ε α β : Type} (e : ε) (f : α → Except ε β) :
    ((Except.error e : Except ε α) >>= f) = Except.error e := rfl

/-! ## Claim theorems: error propagation (all handlers but the multi-zone
per-item loop) -/

/-- C3: Outside the multi-zone per-item loop, an upstream failure is never
caught: `fetchJSON` turns a non-2xx response into a thrown error whose
message embeds the numeric status and re-throws network failures; each
handler propagates such errors unchanged and succeeds exactly when every
upstream call in its batch succeeds (the two-fetch handlers fail as soon as
either call fails). -/
theorem upstream_error_propagation :
    (∀ (α : Type) (s : Nat) (b : α), statusOk s = false →
        fetchJSON (FetchOutcome.response s b)
          = Except.error ("API error: " ++ toString s))
    ∧ (∀ (α : Type) (m : String),
        fetchJSON (FetchOutcome.networkFailure (α := α) m) = Except.error m)
    ∧ (∀ o : FetchOutcome TimeData,
        isOkE (currentTimeHandler o) = !outcomeFails o)
    ∧ (∀ (o : FetchOutcome TimeData) (e : String),
        fetchJSON o = Except.error e → currentTimeHandler o = Except.error e)
    ∧ (∀ o : FetchOutcome ConvertResp, isOkE (convertHandler o) = !outcomeFails o)
    ∧ (∀ (s : Nat) (b : ConvertResp), statusOk s = false →
        convertHandler (FetchOutcome.response s b)
          = Except.error ("API error: " ++ toString s))
    ∧ (∀ m : String,
        convertHandler (FetchOutcome.networkFailure m) = Except.error m)
    ∧ (∀ (input : HolidaysInput) (cy : Int)
        (net : String → FetchOutcome (List RawHoliday)),
        isOkE (holidaysHandler input cy net)
          = !outcomeFails (net (holidaysRequestURL input cy)))
    ∧ (∀ (input : HolidaysInput) (cy : Int)
        (net : String → FetchOutcome (List RawHoliday)) (e : String),
        fetchJSON (net (holidaysRequestURL input cy)) = Except.error e →
          holidaysHandler input cy net = Except.error e)
    ∧ (∀ (o1 : FetchOutcome (List String)) (o2 : FetchOutcome (List Country))
        (now : String),
        isOkE (overviewHandler o1 o2 now)
          = (!outcomeFails o1 && !outcomeFails o2))
    ∧ (∀ (input : FullReportInput) (today : String) (now : Int)
        (epoch : String → Int) (genAt : String) (t : FetchOutcome TimeData)
        (h : FetchOutcome (List RawHoliday)),
        isOkE (fullReportHandler input today now epoch genAt t h)
          = (!outcomeFails t && !outcomeFails h)) := by
  refine ⟨?_, ?_, ?_, ?_, ?_, ?_, ?_, ?_, ?_, ?_, ?_⟩
  · intro α s b hs
    simp [fetchJSON, hs]
  · intro α m
    simp [fetchJSON]
  · intro o
    cases o with
    | response s b =>
        by_cases hs : statusOk s = true <;>
          simp [currentTimeHandler, fetchJSON, outcomeFails, hs,
            exceptMap_ok, exceptMap_error, isOkE_ok, isOkE_error]
    | networkFailure m =>
        simp [currentTimeHandler, fetchJSON, outcomeFails,
          exceptMap_error, isOkE_error]
  · intro o e he
    simp [currentTimeHandler, he, exceptMap_error]
  · intro o
    cases o with
    | response s b =>
        by_cases hs : statusOk s = true <;>
          simp [convertHandler, outcomeFails, hs, isOkE_ok, isOkE_error]
    | networkFailure m =>
        simp [convertHandler, outcomeFails, isOkE_error]
  · intro s b hs
    simp [convertHandler, hs]
  · intro m
    simp [convertHandler]
  · intro input cy net
    cases hnet : net (holidaysRequestURL input cy) with
    | response s b =>
        by_cases hs : statusOk s = true <;>
          simp [holidaysHandler, fetchJSON, outcomeFails, hnet, hs,
            exceptMap_ok, exceptMap_error, isOkE_ok, isOkE_error]
    | networkFailure m =>
        simp [holidaysHandler, fetchJSON, outcomeFails, hnet,
          exceptMap_error, isOkE_error]
  · intro input cy net e he
    simp [holidaysHandler, he, exceptMap_error]
  · intro o1 o2 now
    cases o1 with
    | response s1 b1 =>
        by_cases hs1 : statusOk s1 = true
        · cases o2 with
          | response s2 b2 =>
              by_cases hs2 : statusOk s2 = true <;>
                simp [overviewHandler, fetchJSON, outcomeFails, hs1, hs2,
                  exceptBind_ok, exceptBind_error, isOkE_ok, isOkE_error]
          | networkFailure m =>
              simp [overviewHandler, fetchJSON, outcomeFails, hs1,
                exceptBind_ok, exceptBind_error, isOkE_error]
        · simp [overviewHandler, fetchJSON, outcomeFails, hs1,
            exceptBind_error, isOkE_error]
    | networkFailure m =>
        simp [overviewHandler, fetchJSON, outcomeFails,
          exceptBind_error, isOkE_error]
  · intro input today now epoch genAt t h
    cases t with
    | response s1 b1 =>
        by_cases hs1 : statusOk s1 = true
        · cases h with
          | response s2 b2 =>
              by_cases hs2 : statusOk s2 = true <;>
                simp [fullReportHandler, fetchJSON, outcomeFails, hs1, hs2,
                  exceptBind_ok, exceptBind_error, isOkE_ok, isOkE_error]
          | networkFailure m =>
              simp [fullReportHandler, fetchJSON, outcomeFails, hs1,
                exceptBind_ok, exceptBind_error, isOkE_error]
        · simp [fullReportHandler, fetchJSON, outcomeFails, hs1,
            exceptBind_error, isOkE_error]
    | networkFailure m =>
        simp [fullReportHandler, fetchJSON, outcomeFails,
          exceptBind_error, isOkE_error]

/-- Witness for C3: a concrete 503 response produces the status-bearing
error, and a concrete network failure surfaces unchanged from `convert`. -/
theorem upstream_error_propagation_witness :
    fetchJSON (FetchOutcome.response 503 (0 : Int))
      = Except.error ("API error: " ++ toString (503 : Nat))
    ∧ convertHandler (FetchOutcome.networkFailure "connection reset")
      = Except.error "connection reset" :=
  ⟨upstream_error_propagation.1 Int 503 0 (by decide),
   upstream_error_propagation.2.2.2.2.2.2.1 "connection reset"⟩

/-! ## Claim theorems: convert -/

/-- C4: For every 2xx upstream response whose `conversionResult` field is
absent, the convert handler still succeeds (does not throw), returning a
defined `original` block and a defined `converted.timezone`, while
`converted.dateTime`, `date`, `time`, `dayOfWeek` and `dstActive` are all
absent. -/
theorem convert_missing_conversionResult (s : Nat) (r : ConvertResp)
    (hs : statusOk s = true) (hcr : r.conversionResult = none) :
    convertHandler (FetchOutcome.response s r)
      = Except.ok
          { original := { timezone := r.fromTimezone, dateTime := r.fromDateTime }
            converted :=
              { timezone := r.toTimeZone
                dateTime := none
                date := none
                time := none
                dayOfWeek := none
                dstActive := none } } := by
  simp [convertHandler, hs, hcr]

/-- Witness for C4 at a concrete `conversionResult`-free response. -/
theorem convert_missing_conversionResult_witness :
    convertHandler
        (FetchOutcome.response 200
          { fromTimezone := "America/New_York"
            fromDateTime := "2026-02-01 10:00:00"
            toTimeZone := "Europe/London"
            conversionResult := none })
      = Except.ok
          { original :=
              { timezone := "America/New_York"
                dateTime := "2026-02-01 10:00:00" }
            converted :=
              { timezone := "Europe/London"
                dateTime := none
                date := none
                time := none
                dayOfWeek := none
                dstActive := none } } :=
  convert_missing_conversionResult 200
    { fromTimezone := "America/New_York"
      fromDateTime := "2026-02-01 10:00:00"
      toTimeZone := "Europe/London"
      conversionResult := none }
    (by decide) rfl

/-! ## Claim theorems: holidays -/

/-- C5: For every 2-character country code, whatever its casing, the
holidays handler puts the upper-cased code both at the end of the upstream
request URL and in the echoed `countryCode` output field. -/
theorem holidays_uppercase (input : HolidaysInput) (cy : Int)
    (net : String → FetchOutcome (List RawHoliday))
    (hlen : input.countryCode.length = 2) :
    holidaysRequestURL input cy
      = holidaysURLBase ++ toString (holidaysRequestYear input cy) ++ "/"
          ++ input.countryCode.toUpper
    ∧ (∀ out, holidaysHandler input cy net = Except.ok out →
        out.countryCode = input.countryCode.toUpper) := by
  refine ⟨rfl, ?_⟩
  intro out hout
  cases hnet : net (holidaysRequestURL input cy) with
  | response s b =>
      by_cases hs : statusOk s = true
      · rw [holidaysHandler, hnet] at hout
        simp [fetchJSON, hs, exceptMap_ok] at hout
        rw [← hout]
      · rw [holidaysHandler, hnet] at hout
        simp [fetchJSON, hs, exceptMap_error] at hout
  | networkFailure m =>
      rw [holidaysHandler, hnet] at hout
      simp [fetchJSON, exceptMap_error] at hout

/-- Witness for C5: a lower-case "us" is echoed upper-cased. -/
theorem holidays_uppercase_witness :
    ({ countryCode := ("us" : String).toUpper
       year := 2026
       totalHolidays := 0
       holidays := [] } : HolidaysOutput).countryCode
      = ("us" : String).toUpper :=
  (holidays_uppercase ⟨"us", none⟩ 2026
      (fun _ => FetchOutcome.response 200 []) (by decide)).2
    { countryCode := ("us" : String).toUpper
      year := 2026
      totalHolidays := 0
      holidays := [] }
    rfl

/-- C7: When the `year` input is omitted, the holidays handler uses the
current calendar year (the request-time clock value `cy`) both in the
upstream request URL and in the echoed `year` output field. -/
theorem holidays_default_year (input : HolidaysInput) (cy : Int)
    (net : String → FetchOutcome (List RawHoliday))
    (hy : input.year = none) :
    holidaysRequestYear input cy = cy
    ∧ holidaysRequestURL input cy
        = holidaysURLBase ++ toString cy ++ "/" ++ input.countryCode.toUpper
    ∧ (∀ out, holidaysHandler input cy net = Except.ok out → out.year = cy) := by
  have hYear : holidaysRequestYear input cy = cy := by
    simp [holidaysRequestYear, hy]
  refine ⟨hYear, ?_, ?_⟩
  · rw [holidaysRequestURL, hYear]
  · intro out hout
    cases hnet : net (holidaysRequestURL input cy) with
    | response s b =>
        by_cases hs : statusOk s = true
        · rw [holidaysHandler, hnet] at hout
          simp [fetchJSON, hs, exceptMap_ok] at hout
          rw [← hout]
          exact hYear
        · rw [holidaysHandler, hnet] at hout
          simp [fetchJSON, hs, exceptMap_error] at hout
    | networkFailure m =>
        rw [holidaysHandler, hnet] at hout
        simp [fetchJSON, exceptMap_error] at hout

/-- Witness for C7: with no year supplied, the chosen year is the clock
year 2026. -/
theorem holidays_default_year_witness :
    holidaysRequestYear ⟨"us", none⟩ 2026 = 2026 :=
  (holidays_default_year ⟨"us", none⟩ 2026
      (fun _ => FetchOutcome.response 200 []) rfl).1

/-- C10: An explicitly supplied `year = 0` is not used: the JS default is a
falsy `||`, so the integer `0` is replaced by the current calendar year in
the upstream URL and in the echoed `year` field, exactly like an omitted
year. -/
theorem holidays_year_zero (input : HolidaysInput) (cy : Int)
    (net : String → FetchOutcome (List RawHoliday))
    (hy : input.year = some 0) :
    holidaysRequestYear input cy = cy
    ∧ holidaysRequestURL input cy
        = holidaysURLBase ++ toString cy ++ "/" ++ input.countryCode.toUpper
    ∧ (∀ out, holidaysHandler input cy net = Except.ok out → out.year = cy) := by
  have hYear : holidaysRequestYear input cy = cy := by
    simp [holidaysRequestYear, hy]
  refine ⟨hYear, ?_, ?_⟩
  · rw [holidaysRequestURL, hYear]
  · intro out hout
    cases hnet : net (holidaysRequestURL input cy) with
    | response s b =>
        by_cases hs : statusOk s = true
        · rw [holidaysHandler, hnet] at hout
          simp [fetchJSON, hs, exceptMap_ok] at hout
          rw [← hout]
          exact hYear
        · rw [holidaysHandler, hnet] at hout
          simp [fetchJSON, hs, exceptMap_error] at hout
    | networkFailure m =>
        rw [holidaysHandler, hnet] at hout
        simp [fetchJSON, exceptMap_error] at hout

/-- Witness for C10: a supplied year 0 is replaced by the clock year 2026. -/
theorem holidays_year_zero_witness :
    holidaysRequestYear ⟨"us", some 0⟩ 2026 = 2026 :=
  (holidays_year_zero ⟨"us", some 0⟩ 2026
      (fun _ => FetchOutcome.response 200 []) rfl).1

/-! ## Claim theorems: overview -/

/-- C8: Whenever both upstream lists arrive successfully, the overview
output carries the fixed 11-element sample of major IANA timezone names,
`totalTimezones` and `totalCountries` equal to the two upstream list
lengths, and `sampleCountries` equal to the first 10 upstream countries in
upstream order (no re-sorting). -/
theorem overview_output (tzList : List String) (cList : List Country)
    (s1 s2 : Nat) (now : String)
    (h1 : statusOk s1 = true) (h2 : statusOk s2 = true) :
    overviewHandler (FetchOutcome.response s1 tzList)
        (FetchOutcome.response s2 cList) now
      = Except.ok
          { totalTimezones := tzList.length
            sampleTimezones := majorZones
            totalCountries := cList.length
            sampleCountries := cList.take 10
            endpoints := endpointsMap
            fetchedAt := now }
    ∧ majorZones.length = 11 := by
  refine ⟨?_, by rfl⟩
  simp only [overviewHandler, fetchJSON, h1, h2, if_true]
  rfl

/-- Witness for C8 at concrete successful upstream responses. -/
theorem overview_output_witness :
    overviewHandler (FetchOutcome.response 200 ([] : List String))
        (FetchOutcome.response 200 ([] : List Country)) "2026-02-01T00:00:00Z"
      = Except.ok
          { totalTimezones := 0
            sampleTimezones := majorZones
            totalCountries := 0
            sampleCountries := []
            endpoints := endpointsMap
            fetchedAt := "2026-02-01T00:00:00Z" } :=
  (overview_output [] [] 200 200 "2026-02-01T00:00:00Z"
      (by decide) (by decide)).1
